import Mathlib

/-!
Shallow embedding of the dbus-rs client library (src/ffi.rs, src/newdbus.rs,
src/message.rs) and proofs about its marshalling and synchronous-call layers.

Native pointers are modelled as natural numbers with `0` playing the role of
NULL; the native D-Bus library itself is an external collaborator and is
modelled by explicit oracle parameters (what each native call returns).
-/

namespace DbusRs

/-- A native pointer. `0` models the NULL pointer. -/
abbrev Handle := Nat

/-- The NULL pointer (`ptr::null_mut()`). -/
def nullHandle : Handle := 0

/-! ## Wire-type codes (src/ffi.rs lines 17-29)

Each constant mirrors `pub const DBUS_TYPE_* : c_int = '<c>' as c_int`. -/

def DBUS_TYPE_ARRAY : Nat := Char.toNat 'a'
def DBUS_TYPE_VARIANT : Nat := Char.toNat 'v'
def DBUS_TYPE_BOOLEAN : Nat := Char.toNat 'b'
def DBUS_TYPE_INVALID : Nat := 0
def DBUS_TYPE_STRING : Nat := Char.toNat 's'
def DBUS_TYPE_DICT_ENTRY : Nat := Char.toNat 'e'
def DBUS_TYPE_BYTE : Nat := Char.toNat 'y'
def DBUS_TYPE_INT16 : Nat := Char.toNat 'n'
def DBUS_TYPE_UINT16 : Nat := Char.toNat 'q'
def DBUS_TYPE_INT32 : Nat := Char.toNat 'i'
def DBUS_TYPE_UINT32 : Nat := Char.toNat 'u'
def DBUS_TYPE_INT64 : Nat := Char.toNat 'x'
def DBUS_TYPE_UINT64 : Nat := Char.toNat 't'

/-- Modelled from the spec: codes for the D-Bus types the spec's Value model
includes (Double, ObjectPath, Struct) whose constants are not declared in
src/ffi.rs; values follow the D-Bus single-character type codes the spec's
signature description uses. -/
def DBUS_TYPE_DOUBLE : Nat := Char.toNat 'd'

def DBUS_TYPE_OBJECT_PATH : Nat := Char.toNat 'o'

def DBUS_TYPE_STRUCT : Nat := Char.toNat 'r'

/-- `DBusMessageType` (src/ffi.rs lines 64-72). -/
inductive MessageType where
  | invalid
  | methodCall
  | methodReturn
  | error
  | signal
deriving DecidableEq, Repr

/-- Rendering used by the `Show` derive on `DBusMessageType`, as interpolated
into the panic message of `call_method_sync`. -/
def MessageType.show : MessageType → String
  | .invalid => "Invalid"
  | .methodCall => "MethodCall"
  | .methodReturn => "MethodReturn"
  | .error => "Error"
  | .signal => "Signal"

/-- `DBusBusType` (src/ffi.rs lines 9-15). -/
inductive BusType where
  | session
  | system
  | starter
deriving DecidableEq, Repr

/-- Modelled from the spec: the crate-root `Error` type is not under src/;
per the spec it owns a native error record holding a name string and a
human-readable message string. -/
structure DBusError where
  name : String
  message : String
deriving DecidableEq, Repr

/-! ## The Value data model

Modelled from the spec: the crate-root `MessageItem` variant type is not under
src/. Per the spec it is a closed variant with one case per D-Bus wire type:
scalar cases Byte, Boolean, Int16/UInt16/Int32/UInt32/Int64/UInt64, Double,
Str, ObjectPath, and container cases Array (elements plus their shared element
signature), Struct, DictEntry (one key, one value), Variant (one boxed value).
`Double` is carried as its raw 64-bit pattern, since the marshaller only ever
copies it. -/
inductive Value where
  | byte : Nat → Value
  | boolean : Bool → Value
  | int16 : Int → Value
  | uint16 : Nat → Value
  | int32 : Int → Value
  | uint32 : Nat → Value
  | int64 : Int → Value
  | uint64 : Nat → Value
  | double : Nat → Value
  | str : String → Value
  | objectPath : String → Value
  | array : String → List Value → Value
  | struct : List Value → Value
  | dictEntry : Value → Value → Value
  | variant : Value → Value

/-- Modelled from the spec: the deterministic type signature of a Value.
An Array's signature is `a` + element signature; a Struct's is `(` +
concatenated member signatures + `)`; a Variant's outer signature is the
single variant character with the inner signature never flattened into it. -/
def Value.signature : Value → String
  | .byte _ => "y"
  | .boolean _ => "b"
  | .int16 _ => "n"
  | .uint16 _ => "q"
  | .int32 _ => "i"
  | .uint32 _ => "u"
  | .int64 _ => "x"
  | .uint64 _ => "t"
  | .double _ => "d"
  | .str _ => "s"
  | .objectPath _ => "o"
  | .array s _ => "a" ++ s
  | .struct vs => "(" ++ sigList vs ++ ")"
  | .dictEntry k v => "\x7b" ++ k.signature ++ v.signature ++ "\x7d"
  | .variant _ => "v"
where
  /-- Concatenated signatures of a member list. -/
  sigList : List Value → String
    | [] => ""
    | v :: vs => v.signature ++ sigList vs

/-- The raw payload read/written through the cursor's basic-value primitives,
kept typed by the wire-type code that accompanies it. -/
inductive RawVal where
  | int : Int → RawVal
  | nat : Nat → RawVal
  | bool : Bool → RawVal
  | str : String → RawVal

/-- One element of a message body as exposed by the cursor abstraction:
either a basic value tagged with its wire-type code, or a container tagged
with its code, an optional contained-signature tag, and its sub-elements. -/
inductive WireElem where
  | basic : Nat → RawVal → WireElem
  | container : Nat → Option String → List WireElem → WireElem

/-- A message body, as traversed by the cursor. -/
abbrev Body := List WireElem

mutual

/-- Modelled from the spec: the encode direction of the Cursor Marshaller
(`MessageItem::copy_to_iter`, not under src/). A scalar writes its raw value
tagged with its wire-type code; an Array opens a container tagged with the
element signature; a Struct opens an untyped container; a DictEntry opens a
dict-entry container holding key then value; a Variant opens a container
tagged with the inner value's own signature holding the one inner value. -/
def encodeValue : Value → WireElem
  | .byte b => .basic DBUS_TYPE_BYTE (.nat b)
  | .boolean b => .basic DBUS_TYPE_BOOLEAN (.bool b)
  | .int16 i => .basic DBUS_TYPE_INT16 (.int i)
  | .uint16 n => .basic DBUS_TYPE_UINT16 (.nat n)
  | .int32 i => .basic DBUS_TYPE_INT32 (.int i)
  | .uint32 n => .basic DBUS_TYPE_UINT32 (.nat n)
  | .int64 i => .basic DBUS_TYPE_INT64 (.int i)
  | .uint64 n => .basic DBUS_TYPE_UINT64 (.nat n)
  | .double d => .basic DBUS_TYPE_DOUBLE (.nat d)
  | .str s => .basic DBUS_TYPE_STRING (.str s)
  | .objectPath s => .basic DBUS_TYPE_OBJECT_PATH (.str s)
  | .array s vs => .container DBUS_TYPE_ARRAY (some s) (encodeList vs)
  | .struct vs => .container DBUS_TYPE_STRUCT none (encodeList vs)
  | .dictEntry k v => .container DBUS_TYPE_DICT_ENTRY none [encodeValue k, encodeValue v]
  | .variant v => .container DBUS_TYPE_VARIANT (some v.signature) [encodeValue v]

/-- Encode a sequence of Values in order. -/
def encodeList : List Value → List WireElem
  | [] => []
  | v :: vs => encodeValue v :: encodeList vs

end

mutual

/-- Modelled from the spec: the decode direction of the Cursor Marshaller
(`MessageItem::from_iter`, not under src/). Dispatch on the current element's
wire-type code: scalars are read directly; containers are recursed into with
a sub-cursor and wrapped in the matching Value case. An unrecognized code
decodes to `none` (it must not panic). -/
def decodeElem : WireElem → Option Value
  | .basic c r =>
    if c = DBUS_TYPE_BYTE then match r with | .nat n => some (.byte n) | _ => none
    else if c = DBUS_TYPE_BOOLEAN then match r with | .bool b => some (.boolean b) | _ => none
    else if c = DBUS_TYPE_INT16 then match r with | .int i => some (.int16 i) | _ => none
    else if c = DBUS_TYPE_UINT16 then match r with | .nat n => some (.uint16 n) | _ => none
    else if c = DBUS_TYPE_INT32 then match r with | .int i => some (.int32 i) | _ => none
    else if c = DBUS_TYPE_UINT32 then match r with | .nat n => some (.uint32 n) | _ => none
    else if c = DBUS_TYPE_INT64 then match r with | .int i => some (.int64 i) | _ => none
    else if c = DBUS_TYPE_UINT64 then match r with | .nat n => some (.uint64 n) | _ => none
    else if c = DBUS_TYPE_DOUBLE then match r with | .nat n => some (.double n) | _ => none
    else if c = DBUS_TYPE_STRING then match r with | .str s => some (.str s) | _ => none
    else if c = DBUS_TYPE_OBJECT_PATH then match r with | .str s => some (.objectPath s) | _ => none
    else none
  | .container c tag sub =>
    if c = DBUS_TYPE_ARRAY then
      match tag with
      | some s => some (.array s (from_iter sub))
      | none => none
    else if c = DBUS_TYPE_STRUCT then some (.struct (from_iter sub))
    else if c = DBUS_TYPE_DICT_ENTRY then
      match from_iter sub with
      | [k, v] => some (.dictEntry k v)
      | _ => none
    else if c = DBUS_TYPE_VARIANT then
      match from_iter sub with
      | [v] => some (.variant v)
      | _ => none
    else none

/-- Decode elements in order until the cursor reports no further valid
element; an invalid element ends the sequence (the remaining body is treated
as empty, the spec's documented best-effort policy). -/
def from_iter : List WireElem → List Value
  | [] => []
  | e :: rest =>
    match decodeElem e with
    | some v => v :: from_iter rest
    | none => []

end

/-- Modelled from the spec: the encode entry point `MessageItem::copy_to_iter`
appends each Value of the slice, in order, through the write cursor. -/
def copy_to_iter (v : List Value) : List WireElem :=
  encodeList v

/-- `dbus_message_iter_init`: positions a read cursor at the first body
element, reporting `0` (false) exactly when the message has no arguments. -/
def iter_init (body : Body) : Bool :=
  !body.isEmpty

namespace Newdbus

/-- `get_items` (src/newdbus.rs lines 216-222): if `dbus_message_iter_init`
reports no first element, return the empty vector; otherwise decode via
`MessageItem::from_iter`. -/
def get_items (body : Body) : List Value :=
  match iter_init body with
  | false => []
  | true => from_iter body

/-- `append_items` (src/newdbus.rs lines 224-228): position an append cursor
at the end of the body and copy the items through it. -/
def append_items (body : Body) (v : List Value) : Body :=
  body ++ copy_to_iter v

end Newdbus

namespace MessageRs

/-- `get_items` (src/message.rs lines 42-48), textually the same logic as the
newdbus.rs copy. -/
def get_items (body : Body) : List Value :=
  match iter_init body with
  | false => []
  | true => from_iter body

/-- `append_items` (src/message.rs lines 50-54). -/
def append_items (body : Body) (v : List Value) : Body :=
  body ++ copy_to_iter v

end MessageRs

/-! ## Message construction

A native constructor either returns a handle or NULL; the `check_memory!`
macro turns a NULL into a panic. An allocation oracle stands in for the
native allocator's choice. -/

/-- Outcome of a construction path that may panic. -/
inductive ConstructResult (α : Type) where
  | ok : α → ConstructResult α
  | panic : String → ConstructResult α
deriving DecidableEq, Repr

/-- Map over the success case of a construction result. -/
def ConstructResult.map {α β : Type} (f : α → β) : ConstructResult α → ConstructResult β
  | .ok a => .ok (f a)
  | .panic s => .panic s

/-- Whether a construction result is the panic case. -/
def ConstructResult.isPanic {α : Type} : ConstructResult α → Bool
  | .ok _ => false
  | .panic _ => true

/-- A construction result either panicked or wraps a value whose handle is
non-null (it has no third, recoverable-error case). -/
def nonNullOrPanic {α : Type} (handleOf : α → Handle) : ConstructResult α → Prop
  | .ok a => handleOf a ≠ nullHandle
  | .panic _ => True

/-- `check_memory!` (src/newdbus.rs lines 196-203 and src/message.rs lines
23-30): panics with "out of memory!" on a NULL value, passes any other
value through. -/
def check_memory (p : Handle) : ConstructResult Handle :=
  if p = nullHandle then .panic "out of memory!" else .ok p

/-- The arguments the wrapper hands to `ffi::dbus_message_new_method_call`
(`none` models passing `ptr::null()`). -/
structure NewMethodCallArgs where
  destination : Option String
  path : String
  iface : Option String
  method : String
deriving DecidableEq, Repr

/-- The arguments the wrapper hands to `ffi::dbus_message_new_error`. -/
structure NewErrorArgs where
  replyTo : Handle
  name : String
  message : String
deriving DecidableEq, Repr

namespace Newdbus

/-- The `MethodCall` wrapper struct (src/newdbus.rs lines 179-190, 205-209):
holds one native message handle. -/
structure MethodCall where
  handle : Handle
deriving DecidableEq, Repr

/-- The `MethodReturn` wrapper struct. -/
structure MethodReturn where
  handle : Handle
deriving DecidableEq, Repr

/-- The `Error` message wrapper struct. -/
structure DError where
  handle : Handle
deriving DecidableEq, Repr

/-- The argument record `MethodCall::new` (src/newdbus.rs lines 242-249)
hands to `ffi::dbus_message_new_method_call`: an empty destination is passed
as NULL, likewise an empty iface; path and method are passed as given. -/
def methodCallArgs (destination path iface method : String) : NewMethodCallArgs :=
  { destination := if destination.isEmpty then none else some destination
    path := path
    iface := if iface.isEmpty then none else some iface
    method := method }

/-- `MethodCall::new` (src/newdbus.rs lines 232-250): build the native
argument record and pass the allocator's result through `check_memory!`.
`alloc` models `ffi::dbus_message_new_method_call`. -/
def MethodCall.new (destination path iface method : String)
    (alloc : NewMethodCallArgs → Handle) : ConstructResult MethodCall :=
  match check_memory (alloc (methodCallArgs destination path iface method)) with
  | .ok h => .ok ⟨h⟩
  | .panic s => .panic s

/-- `MethodCall::new_return` (src/newdbus.rs lines 253-255): wraps
`ffi::dbus_message_new_method_return(self.0)` in `check_memory!`.
`allocRet` models the native constructor. -/
def MethodCall.new_return (c : MethodCall) (allocRet : Handle → Handle) :
    ConstructResult MethodReturn :=
  match check_memory (allocRet c.handle) with
  | .ok h => .ok ⟨h⟩
  | .panic s => .panic s

/-- The argument record `Error::new` (src/newdbus.rs lines 277-294) hands to
`ffi::dbus_message_new_error`: an empty name is replaced by
"org.freedesktop.DBus.Error.Failed"; the message passes through. -/
def errorArgs (reply_to : Handle) (name message : String) : NewErrorArgs :=
  { replyTo := reply_to
    name := if name.isEmpty then "org.freedesktop.DBus.Error.Failed" else name
    message := message }

/-- `Error::new` (src/newdbus.rs lines 277-294): build the native argument
record and pass the allocator's result through `check_memory!`. `allocErr`
models `ffi::dbus_message_new_error`. -/
def Error.new (reply_to : Handle) (name message : String)
    (allocErr : NewErrorArgs → Handle) : ConstructResult DError :=
  match check_memory (allocErr (errorArgs reply_to name message)) with
  | .ok h => .ok ⟨h⟩
  | .panic s => .panic s

/-- `MethodCall::new_error` (src/newdbus.rs lines 261-265): delegates to
`Error::new` with this call's handle as the reply-to message. -/
def MethodCall.new_error (c : MethodCall) (name message : String)
    (allocErr : NewErrorArgs → Handle) : ConstructResult DError :=
  Error.new c.handle name message allocErr

/-- `MethodCall::respond_with` (src/newdbus.rs lines 268-272): build the
return via `new_return`, then append the items into its (fresh, empty) body.
The result carries the wrapper together with the body it was given. -/
def MethodCall.respond_with (c : MethodCall) (v : List Value)
    (allocRet : Handle → Handle) : ConstructResult (MethodReturn × Body) :=
  match MethodCall.new_return c allocRet with
  | .ok response => .ok (response, append_items [] v)
  | .panic s => .panic s

end Newdbus

namespace MessageRs

/-- The `MethodCall` wrapper struct (src/message.rs lines 6-17, 32-35). -/
structure MethodCall where
  handle : Handle
deriving DecidableEq, Repr

/-- The `MethodReturn` wrapper struct. -/
structure MethodReturn where
  handle : Handle
deriving DecidableEq, Repr

/-- The argument record `MethodCall::new` (src/message.rs lines 91-98) hands
to `ffi::dbus_message_new_method_call`: destination and iface are passed as
NULL exactly when their length is 0; path and method are passed as given. -/
def methodCallArgs (destination path iface method : String) : NewMethodCallArgs :=
  { destination := match destination.length with | 0 => none | _ => some destination
    path := path
    iface := match iface.length with | 0 => none | _ => some iface
    method := method }

/-- `MethodCall::new` (src/message.rs lines 81-99): build the native argument
record and pass the allocator's result through `check_memory!`. -/
def MethodCall.new (destination path iface method : String)
    (alloc : NewMethodCallArgs → Handle) : ConstructResult MethodCall :=
  match check_memory (alloc (methodCallArgs destination path iface method)) with
  | .ok h => .ok ⟨h⟩
  | .panic s => .panic s

/-- `MethodCall::new_response` (src/message.rs lines 102-104): wraps
`ffi::dbus_message_new_method_return(self.0)` in `check_memory!`. -/
def MethodCall.new_response (c : MethodCall) (allocRet : Handle → Handle) :
    ConstructResult MethodReturn :=
  match check_memory (allocRet c.handle) with
  | .ok h => .ok ⟨h⟩
  | .panic s => .panic s

/-- `MethodCall::respond_with` (src/message.rs lines 107-111). -/
def MethodCall.respond_with (c : MethodCall) (v : List Value)
    (allocRet : Handle → Handle) : ConstructResult (MethodReturn × Body) :=
  match MethodCall.new_response c allocRet with
  | .ok response => .ok (response, append_items [] v)
  | .panic s => .panic s

end MessageRs

/-! ## Connection, synchronous calls, and Object stubs (src/newdbus.rs) -/

namespace Newdbus

/-- The `Connection` struct (src/newdbus.rs line 8): one native bus handle. -/
structure Connection where
  handle : Handle
deriving DecidableEq, Repr

/-- A native call observable during connection construction, used to state
what `new_for_type` does to the handle before returning it. -/
inductive NativeCall where
  | busGetPrivate : BusType → NativeCall
  | setExitOnDisconnect : Handle → Nat → NativeCall
deriving DecidableEq, Repr

/-- `Connection::new_for_type` (src/newdbus.rs lines 27-38): acquire a
private bus handle; a NULL handle returns the populated error with no
Connection built; otherwise exit-on-disconnect is set to 0 on the handle
and the Connection is returned. `openRes` models the handle
`ffi::dbus_bus_get_private` returns and `populated` the error it writes on
failure. The native calls made are returned alongside, in order. -/
def Connection.new_for_type (bus : BusType) (openRes : Handle)
    (populated : DBusError) : Except DBusError Connection × List NativeCall :=
  if openRes = nullHandle then
    (.error populated, [.busGetPrivate bus])
  else
    (.ok ⟨openRes⟩, [.busGetPrivate bus, .setExitOnDisconnect openRes 0])

/-- `Connection::new` (src/newdbus.rs lines 22-24): delegates to
`new_for_type` with the session bus. -/
def Connection.new (openRes : Handle) (populated : DBusError) :
    Except DBusError Connection × List NativeCall :=
  Connection.new_for_type BusType.session openRes populated

/-- `Connection::send_sync` (src/newdbus.rs lines 41-51): a non-NULL native
reply is returned together with its message-type tag; a NULL reply returns
the populated error. `sendRes` models the handle
`ffi::dbus_connection_send_with_reply_and_block` returns, `typeOf` models
`ffi::dbus_message_get_type`, and `populated` the error written on failure. -/
def Connection.send_sync (conn : Connection) (msg : Handle)
    (sendRes : Handle → Handle → Handle) (typeOf : Handle → MessageType)
    (populated : DBusError) : Except DBusError (Handle × MessageType) :=
  let resp := sendRes conn.handle msg
  if resp ≠ nullHandle then
    .ok (resp, typeOf resp)
  else
    .error populated

/-- Outcome of `call_method_sync`, separating the panic path from the two
`Result` arms. -/
inductive CallOutcome where
  | ok : MethodReturn → CallOutcome
  | err : DBusError → CallOutcome
  | panic : String → CallOutcome
deriving DecidableEq, Repr

/-- Whether a call outcome is a caller-visible `Err` through the Result
channel. -/
def CallOutcome.isErr : CallOutcome → Bool
  | .err _ => true
  | _ => false

/-- `Connection::call_method_sync` (src/newdbus.rs lines 86-99): build the
MethodCall (panicking on allocation failure), append the arguments, send
synchronously; a reply typed MethodReturn is wrapped as success, any other
reply type panics, and a send failure returns the error. -/
def Connection.call_method_sync (conn : Connection)
    (destination path iface method : String) (args : List Value)
    (alloc : NewMethodCallArgs → Handle)
    (sendRes : Handle → Handle → Handle) (typeOf : Handle → MessageType)
    (populated : DBusError) : CallOutcome :=
  match MethodCall.new destination path iface method alloc with
  | .panic s => .panic s
  | .ok msg =>
    let _body := append_items [] args
    match conn.send_sync msg.handle sendRes typeOf populated with
    | .ok (resp, typ) =>
      match typ with
      | .methodReturn => .ok ⟨resp⟩
      | t => .panic ("method call received non-method-return value in response: " ++ t.show)
    | .error e => .err e

/-- The `Object` struct (src/newdbus.rs lines 117-121): a back-reference to
a Connection plus copied destination and path strings. -/
structure Object where
  conn : Connection
  destination : String
  path : String
deriving DecidableEq, Repr

/-- `Object::new` (src/newdbus.rs lines 152-160). -/
def Object.new (conn : Connection) (destination path : String) : Object :=
  { conn := conn, destination := destination, path := path }

/-- `Connection::stub` (src/newdbus.rs lines 101-105). -/
def Connection.stub (conn : Connection) (destination path : String) : Object :=
  Object.new conn destination path

/-- `Object::call_full` (src/newdbus.rs lines 162-168): forwards to the
referenced Connection's `call_method_sync` with the stored destination and
path. -/
def Object.call_full (o : Object) (iface method : String) (args : List Value)
    (alloc : NewMethodCallArgs → Handle)
    (sendRes : Handle → Handle → Handle) (typeOf : Handle → MessageType)
    (populated : DBusError) : CallOutcome :=
  o.conn.call_method_sync o.destination o.path iface method args alloc sendRes typeOf populated

/-- `Object::call` (src/newdbus.rs lines 170-174): `call_full` with the
empty interface. -/
def Object.call (o : Object) (method : String) (args : List Value)
    (alloc : NewMethodCallArgs → Handle)
    (sendRes : Handle → Handle → Handle) (typeOf : Handle → MessageType)
    (populated : DBusError) : CallOutcome :=
  o.call_full "" method args alloc sendRes typeOf populated

end Newdbus

/-! ## Round-trip of the Cursor Marshaller -/

mutual

/-- Decoding an encoded Value recovers it exactly. -/
theorem decodeElem_encodeValue (v : Value) : decodeElem (encodeValue v) = some v := by
  cases v with
  | byte b => simp [encodeValue, decodeElem, DBUS_TYPE_BYTE]
  | boolean b => simp [encodeValue, decodeElem, DBUS_TYPE_BYTE, DBUS_TYPE_BOOLEAN]
  | int16 i => simp [encodeValue, decodeElem, DBUS_TYPE_BYTE, DBUS_TYPE_BOOLEAN, DBUS_TYPE_INT16]
  | uint16 n => simp [encodeValue, decodeElem, DBUS_TYPE_BYTE, DBUS_TYPE_BOOLEAN, DBUS_TYPE_INT16,
      DBUS_TYPE_UINT16]
  | int32 i => simp [encodeValue, decodeElem, DBUS_TYPE_BYTE, DBUS_TYPE_BOOLEAN, DBUS_TYPE_INT16,
      DBUS_TYPE_UINT16, DBUS_TYPE_INT32]
  | uint32 n => simp [encodeValue, decodeElem, DBUS_TYPE_BYTE, DBUS_TYPE_BOOLEAN, DBUS_TYPE_INT16,
      DBUS_TYPE_UINT16, DBUS_TYPE_INT32, DBUS_TYPE_UINT32]
  | int64 i => simp [encodeValue, decodeElem, DBUS_TYPE_BYTE, DBUS_TYPE_BOOLEAN, DBUS_TYPE_INT16,
      DBUS_TYPE_UINT16, DBUS_TYPE_INT32, DBUS_TYPE_UINT32, DBUS_TYPE_INT64]
  | uint64 n => simp [encodeValue, decodeElem, DBUS_TYPE_BYTE, DBUS_TYPE_BOOLEAN, DBUS_TYPE_INT16,
      DBUS_TYPE_UINT16, DBUS_TYPE_INT32, DBUS_TYPE_UINT32, DBUS_TYPE_INT64, DBUS_TYPE_UINT64]
  | double d => simp [encodeValue, decodeElem, DBUS_TYPE_BYTE, DBUS_TYPE_BOOLEAN, DBUS_TYPE_INT16,
      DBUS_TYPE_UINT16, DBUS_TYPE_INT32, DBUS_TYPE_UINT32, DBUS_TYPE_INT64, DBUS_TYPE_UINT64,
      DBUS_TYPE_DOUBLE]
  | str s => simp [encodeValue, decodeElem, DBUS_TYPE_BYTE, DBUS_TYPE_BOOLEAN, DBUS_TYPE_INT16,
      DBUS_TYPE_UINT16, DBUS_TYPE_INT32, DBUS_TYPE_UINT32, DBUS_TYPE_INT64, DBUS_TYPE_UINT64,
      DBUS_TYPE_DOUBLE, DBUS_TYPE_STRING]
  | objectPath s => simp [encodeValue, decodeElem, DBUS_TYPE_BYTE, DBUS_TYPE_BOOLEAN,
      DBUS_TYPE_INT16, DBUS_TYPE_UINT16, DBUS_TYPE_INT32, DBUS_TYPE_UINT32, DBUS_TYPE_INT64,
      DBUS_TYPE_UINT64, DBUS_TYPE_DOUBLE, DBUS_TYPE_STRING, DBUS_TYPE_OBJECT_PATH]
  | array s vs => simp [encodeValue, decodeElem, DBUS_TYPE_ARRAY, from_iter_encodeList vs]
  | struct vs => simp [encodeValue, decodeElem, DBUS_TYPE_ARRAY, DBUS_TYPE_STRUCT,
      from_iter_encodeList vs]
  | dictEntry k w => simp [encodeValue, decodeElem, from_iter, DBUS_TYPE_ARRAY, DBUS_TYPE_STRUCT,
      DBUS_TYPE_DICT_ENTRY, decodeElem_encodeValue k, decodeElem_encodeValue w]
  | variant w => simp [encodeValue, decodeElem, from_iter, DBUS_TYPE_ARRAY, DBUS_TYPE_STRUCT,
      DBUS_TYPE_DICT_ENTRY, DBUS_TYPE_VARIANT, decodeElem_encodeValue w]

/-- Decoding an encoded sequence of Values recovers the sequence exactly. -/
theorem from_iter_encodeList (vs : List Value) : from_iter (encodeList vs) = vs := by
  cases vs with
  | nil => simp [encodeList, from_iter]
  | cons v vs => simp [encodeList, from_iter, decodeElem_encodeValue v, from_iter_encodeList vs]

end

/-- C2: for every sequence of constructible Values (scalars, Array, Struct,
DictEntry, Variant, and nested combinations), encoding it into a message body
with `append_items` and decoding that body with `get_items` yields a sequence
equal to the original. -/
theorem get_items_append_items_roundtrip (vs : List Value) :
    Newdbus.get_items (Newdbus.append_items ([] : Body) vs) = vs := by
  cases vs with
  | nil => rfl
  | cons v vs =>
    simp [Newdbus.get_items, Newdbus.append_items, copy_to_iter, iter_init, encodeList,
      from_iter, decodeElem_encodeValue v, from_iter_encodeList vs]

/-- C3: when the read cursor reports no valid first element (the message body
is empty), `get_items` returns the empty sequence of Values; being a total
function into `List Value`, it neither fails nor errors. -/
theorem get_items_empty_body (body : Body) (h : iter_init body = false) :
    Newdbus.get_items body = [] := by
  simp [Newdbus.get_items, h]

/-- Instantiation of `get_items_empty_body` at the empty body. -/
theorem get_items_empty_body_witness :
    iter_init ([] : Body) = false ∧ Newdbus.get_items ([] : Body) = [] :=
  ⟨rfl, get_items_empty_body [] rfl⟩

/-- A string has length 0 exactly when it is the empty string. -/
theorem string_length_zero_iff (s : String) : s.length = 0 ↔ s = "" := by
  rw [String.length, List.length_eq_zero]
  constructor
  · intro h
    cases s
    simp_all
  · intro h
    subst h
    rfl

/-- The two source spellings of "pass NULL for an empty string" agree: the
length-match of src/message.rs and the `is_empty` test of src/newdbus.rs
produce the same optional argument. -/
theorem matchlen_eq_ifEmpty (s : String) :
    (match s.length with | 0 => (none : Option String) | _ => some s)
      = (if s.isEmpty then none else some s) := by
  cases hl : s.length with
  | zero =>
    have hs : s = "" := (string_length_zero_iff s).mp hl
    subst hs
    rfl
  | succ n =>
    have hs : s ≠ "" := by
      intro h
      subst h
      simp [String.length] at hl
    simp [String.isEmpty_iff, hs]

namespace Newdbus

/-- C1 counterexample: with a successful allocation and a non-null native
reply whose message-type tag is Error, `call_method_sync` panics instead of
returning a caller-visible Error through the Result channel. -/
theorem call_method_sync_error_reply_panics :
    (Connection.call_method_sync ⟨1⟩ "org.example.Dest" "/org/example" "" "Ping" []
        (fun _ => 2) (fun _ _ => 3) (fun _ => .error) ⟨"n", "m"⟩).isErr = false
    ∧ Connection.call_method_sync ⟨1⟩ "org.example.Dest" "/org/example" "" "Ping" []
        (fun _ => 2) (fun _ _ => 3) (fun _ => .error) ⟨"n", "m"⟩
      = .panic "method call received non-method-return value in response: Error" :=
  ⟨rfl, rfl⟩

/-- C1 (amended): when the message allocation succeeds, `call_method_sync`
classifies the send result as follows: a non-null reply tagged MethodReturn
is returned as success wrapping that reply; a null reply (send failure)
returns the populated error through the Result channel; and a non-null reply
with any tag other than MethodReturn — including Error — is a fatal
panic-class protocol violation. -/
theorem call_method_sync_classified
    (conn : Connection) (destination path iface method : String) (args : List Value)
    (alloc : NewMethodCallArgs → Handle) (sendRes : Handle → Handle → Handle)
    (typeOf : Handle → MessageType) (populated : DBusError)
    (halloc : alloc (methodCallArgs destination path iface method) ≠ nullHandle) :
    (sendRes conn.handle (alloc (methodCallArgs destination path iface method)) ≠ nullHandle →
      typeOf (sendRes conn.handle (alloc (methodCallArgs destination path iface method)))
        = .methodReturn →
      conn.call_method_sync destination path iface method args alloc sendRes typeOf populated
        = .ok ⟨sendRes conn.handle (alloc (methodCallArgs destination path iface method))⟩) ∧
    (sendRes conn.handle (alloc (methodCallArgs destination path iface method)) = nullHandle →
      conn.call_method_sync destination path iface method args alloc sendRes typeOf populated
        = .err populated) ∧
    (∀ t : MessageType,
      sendRes conn.handle (alloc (methodCallArgs destination path iface method)) ≠ nullHandle →
      typeOf (sendRes conn.handle (alloc (methodCallArgs destination path iface method))) = t →
      t ≠ .methodReturn →
      conn.call_method_sync destination path iface method args alloc sendRes typeOf populated
        = .panic ("method call received non-method-return value in response: " ++ t.show)) := by
  have hnew : MethodCall.new destination path iface method alloc
      = .ok ⟨alloc (methodCallArgs destination path iface method)⟩ := by
    simp [MethodCall.new, check_memory, halloc]
  refine ⟨fun hr ht => ?_, fun hr => ?_, fun t hr ht hne => ?_⟩
  · simp [Connection.call_method_sync, hnew, Connection.send_sync, hr, ht]
  · simp [Connection.call_method_sync, hnew, Connection.send_sync, hr]
  · cases t with
    | methodReturn => exact absurd rfl hne
    | invalid => simp [Connection.call_method_sync, hnew, Connection.send_sync, hr, ht,
        MessageType.show]
    | methodCall => simp [Connection.call_method_sync, hnew, Connection.send_sync, hr, ht,
        MessageType.show]
    | error => simp [Connection.call_method_sync, hnew, Connection.send_sync, hr, ht,
        MessageType.show]
    | signal => simp [Connection.call_method_sync, hnew, Connection.send_sync, hr, ht,
        MessageType.show]

/-- Instantiation of `call_method_sync_classified` on concrete oracles: a
MethodReturn-tagged reply handle 3 is returned as success, and a null reply
surfaces the populated error. -/
theorem call_method_sync_classified_witness :
    Connection.call_method_sync ⟨1⟩ "org.d" "/p" "" "m" []
        (fun _ => 2) (fun _ _ => 3) (fun _ => .methodReturn) ⟨"a", "b"⟩ = .ok ⟨3⟩
    ∧ Connection.call_method_sync ⟨1⟩ "org.d" "/p" "" "m" []
        (fun _ => 2) (fun _ _ => 0) (fun _ => .methodReturn) ⟨"a", "b"⟩ = .err ⟨"a", "b"⟩ :=
  ⟨(call_method_sync_classified ⟨1⟩ "org.d" "/p" "" "m" [] (fun _ => 2) (fun _ _ => 3)
      (fun _ => .methodReturn) ⟨"a", "b"⟩ (by decide)).1 (by decide) rfl,
   (call_method_sync_classified ⟨1⟩ "org.d" "/p" "" "m" [] (fun _ => 2) (fun _ _ => 0)
      (fun _ => .methodReturn) ⟨"a", "b"⟩ (by decide)).2.1 rfl⟩

/-- C4: an Object built over a Connection with destination d and path p
stores exactly those strings, its `call` is `call_full` with the empty
interface, and `call_full` forwards to the Connection's `call_method_sync`
at the stored destination and path; all three equalities are definitional,
so the Object adds no state or behavior beyond forwarding. -/
theorem object_call_forwards (conn : Connection) (d p iface method : String)
    (args : List Value) (alloc : NewMethodCallArgs → Handle)
    (sendRes : Handle → Handle → Handle) (typeOf : Handle → MessageType)
    (populated : DBusError) :
    (Object.new conn d p).destination = d ∧
    (Object.new conn d p).path = p ∧
    (Object.new conn d p).call method args alloc sendRes typeOf populated
      = (Object.new conn d p).call_full "" method args alloc sendRes typeOf populated ∧
    (Object.new conn d p).call_full iface method args alloc sendRes typeOf populated
      = conn.call_method_sync d p iface method args alloc sendRes typeOf populated :=
  ⟨rfl, rfl, rfl, rfl⟩

/-- C5: every Message constructor (`MethodCall::new`, `new_return`,
`new_response`, `new_error`, `respond_with`) either panics or returns a
wrapper holding a non-null handle, and it panics exactly when the native
allocator returns the null handle; the result type has no recoverable-error
case. -/
theorem constructors_nonNull_or_panic
    (d p i m n msgStr : String) (c : MethodCall) (mc : MessageRs.MethodCall)
    (alloc : NewMethodCallArgs → Handle) (allocRet : Handle → Handle)
    (allocErr : NewErrorArgs → Handle) (v : List Value) :
    (nonNullOrPanic MethodCall.handle (MethodCall.new d p i m alloc) ∧
      ((MethodCall.new d p i m alloc).isPanic = true
        ↔ alloc (methodCallArgs d p i m) = nullHandle)) ∧
    (nonNullOrPanic MethodReturn.handle (c.new_return allocRet) ∧
      ((c.new_return allocRet).isPanic = true ↔ allocRet c.handle = nullHandle)) ∧
    (nonNullOrPanic DError.handle (c.new_error n msgStr allocErr) ∧
      ((c.new_error n msgStr allocErr).isPanic = true
        ↔ allocErr (errorArgs c.handle n msgStr) = nullHandle)) ∧
    (nonNullOrPanic (fun x => x.1.handle) (c.respond_with v allocRet) ∧
      ((c.respond_with v allocRet).isPanic = true ↔ allocRet c.handle = nullHandle)) ∧
    (nonNullOrPanic MessageRs.MethodReturn.handle (mc.new_response allocRet) ∧
      ((mc.new_response allocRet).isPanic = true ↔ allocRet mc.handle = nullHandle)) := by
  refine ⟨⟨?_, ?_⟩, ⟨?_, ?_⟩, ⟨?_, ?_⟩, ⟨?_, ?_⟩, ⟨?_, ?_⟩⟩
  · by_cases hx : alloc (methodCallArgs d p i m) = nullHandle <;>
      simp [MethodCall.new, check_memory, hx, nonNullOrPanic]
  · by_cases hx : alloc (methodCallArgs d p i m) = nullHandle <;>
      simp [MethodCall.new, check_memory, hx, ConstructResult.isPanic]
  · by_cases hx : allocRet c.handle = nullHandle <;>
      simp [MethodCall.new_return, check_memory, hx, nonNullOrPanic]
  · by_cases hx : allocRet c.handle = nullHandle <;>
      simp [MethodCall.new_return, check_memory, hx, ConstructResult.isPanic]
  · by_cases hx : allocErr (errorArgs c.handle n msgStr) = nullHandle <;>
      simp [MethodCall.new_error, Error.new, check_memory, hx, nonNullOrPanic]
  · by_cases hx : allocErr (errorArgs c.handle n msgStr) = nullHandle <;>
      simp [MethodCall.new_error, Error.new, check_memory, hx, ConstructResult.isPanic]
  · by_cases hx : allocRet c.handle = nullHandle <;>
      simp [MethodCall.respond_with, MethodCall.new_return, check_memory, hx, nonNullOrPanic]
  · by_cases hx : allocRet c.handle = nullHandle <;>
      simp [MethodCall.respond_with, MethodCall.new_return, check_memory, hx,
        ConstructResult.isPanic]
  · by_cases hx : allocRet mc.handle = nullHandle <;>
      simp [MessageRs.MethodCall.new_response, check_memory, hx, nonNullOrPanic]
  · by_cases hx : allocRet mc.handle = nullHandle <;>
      simp [MessageRs.MethodCall.new_response, check_memory, hx, ConstructResult.isPanic]

/-- C6: for non-empty path and method, `MethodCall::new` passes the native
constructor a null destination exactly when the destination string is empty,
likewise a null interface exactly when the interface string is empty, and
always passes path and method through as given; moreover the allocator is
only ever consulted at that argument record. -/
theorem methodCall_new_arg_passing (d p i m : String) (hp : p ≠ "") (hm : m ≠ "") :
    (d = "" → (methodCallArgs d p i m).destination = none) ∧
    (d ≠ "" → (methodCallArgs d p i m).destination = some d) ∧
    (i = "" → (methodCallArgs d p i m).iface = none) ∧
    (i ≠ "" → (methodCallArgs d p i m).iface = some i) ∧
    (methodCallArgs d p i m).path = p ∧
    (methodCallArgs d p i m).method = m ∧
    (∀ alloc : NewMethodCallArgs → Handle,
      MethodCall.new d p i m alloc
        = MethodCall.new d p i m (fun _ => alloc (methodCallArgs d p i m))) := by
  refine ⟨fun hd => ?_, fun hd => ?_, fun hi => ?_, fun hi => ?_, rfl, rfl, fun alloc => rfl⟩
  · simp [methodCallArgs, String.isEmpty_iff, hd]
  · simp [methodCallArgs, String.isEmpty_iff, hd]
  · simp [methodCallArgs, String.isEmpty_iff, hi]
  · simp [methodCallArgs, String.isEmpty_iff, hi]

/-- Instantiation of `methodCall_new_arg_passing` at concrete strings, with
an empty and a non-empty destination and interface. -/
theorem methodCall_new_arg_passing_witness :
    ((Newdbus.methodCallArgs "" "/pp" "" "mm").destination = none) ∧
    ((Newdbus.methodCallArgs "org.x" "/pp" "org.i" "mm").destination = some "org.x") ∧
    ((Newdbus.methodCallArgs "" "/pp" "" "mm").iface = none) ∧
    ((Newdbus.methodCallArgs "org.x" "/pp" "org.i" "mm").iface = some "org.i") ∧
    ((Newdbus.methodCallArgs "" "/pp" "" "mm").path = "/pp") ∧
    ((Newdbus.methodCallArgs "" "/pp" "" "mm").method = "mm") :=
  ⟨(methodCall_new_arg_passing "" "/pp" "" "mm" (by decide) (by decide)).1 rfl,
   (methodCall_new_arg_passing "org.x" "/pp" "org.i" "mm" (by decide) (by decide)).2.1
     (by decide),
   (methodCall_new_arg_passing "" "/pp" "" "mm" (by decide) (by decide)).2.2.1 rfl,
   (methodCall_new_arg_passing "org.x" "/pp" "org.i" "mm" (by decide) (by decide)).2.2.2.1
     (by decide),
   (methodCall_new_arg_passing "" "/pp" "" "mm" (by decide) (by decide)).2.2.2.2.1,
   (methodCall_new_arg_passing "" "/pp" "" "mm" (by decide) (by decide)).2.2.2.2.2.1⟩

/-- C7: `new_error` builds the Error-reply through `Error::new` against this
call's own handle (tying it to the call's reply-serial), and the native
constructor receives exactly that handle, the default generic failure name
"org.freedesktop.DBus.Error.Failed" when the given name is empty and the
given name otherwise, and the message string unchanged. -/
theorem new_error_default_name (c : MethodCall) (name message : String)
    (allocErr : NewErrorArgs → Handle) :
    c.new_error name message allocErr = Error.new c.handle name message allocErr ∧
    errorArgs c.handle name message
      = { replyTo := c.handle
          name := if name = "" then "org.freedesktop.DBus.Error.Failed" else name
          message := message } := by
  refine ⟨rfl, ?_⟩
  simp [errorArgs, String.isEmpty_iff]

/-- C8: `new_for_type` returns the populated error exactly when the native
open yields the null handle, and then no Connection is constructed and no
further native call is made; on a non-null handle, exit-on-disconnect is set
to 0 on that handle before the Connection wrapping it is returned. -/
theorem new_for_type_open_policy (bus : BusType) (openRes : Handle)
    (populated : DBusError) :
    (openRes = nullHandle →
      Connection.new_for_type bus openRes populated
        = (.error populated, [.busGetPrivate bus])) ∧
    (openRes ≠ nullHandle →
      Connection.new_for_type bus openRes populated
        = (.ok ⟨openRes⟩, [.busGetPrivate bus, .setExitOnDisconnect openRes 0])) := by
  refine ⟨fun h => ?_, fun h => ?_⟩ <;> simp [Connection.new_for_type, h]

/-- Instantiation of `new_for_type_open_policy` at a null and a non-null
native open result. -/
theorem new_for_type_open_policy_witness :
    Connection.new_for_type .session (0 : Handle) ⟨"n", "m"⟩
      = (.error ⟨"n", "m"⟩, [.busGetPrivate .session]) ∧
    Connection.new_for_type .system (7 : Handle) ⟨"n", "m"⟩
      = (.ok ⟨7⟩, [.busGetPrivate .system, .setExitOnDisconnect 7 0]) :=
  ⟨(new_for_type_open_policy .session 0 ⟨"n", "m"⟩).1 rfl,
   (new_for_type_open_policy .system 7 ⟨"n", "m"⟩).2 (by decide)⟩

/-- C9: `Connection::new` is definitionally `new_for_type` at the session
bus: on every native open result and populated error, both produce the same
Result and the same native-call trace. -/
theorem connection_new_is_session (openRes : Handle) (populated : DBusError) :
    Connection.new openRes populated
      = Connection.new_for_type BusType.session openRes populated :=
  rfl

end Newdbus

/-- C10: where the duplicated message layers overlap they agree: on every
body and Value sequence, `get_items` and `append_items` of src/message.rs
return the same results as those of src/newdbus.rs, and on the same inputs
`MethodCall::new`, `new_response`, and `respond_with` of src/message.rs
construct the same messages (same native arguments, same handles, same
bodies) as `MethodCall::new`, `new_return`, and `respond_with` of
src/newdbus.rs. -/
theorem message_layer_agrees (body : Body) (v : List Value) (d p i m : String)
    (alloc : NewMethodCallArgs → Handle) (allocRet : Handle → Handle) (h : Handle) :
    MessageRs.get_items body = Newdbus.get_items body ∧
    MessageRs.append_items body v = Newdbus.append_items body v ∧
    MessageRs.methodCallArgs d p i m = Newdbus.methodCallArgs d p i m ∧
    (MessageRs.MethodCall.new d p i m alloc).map MessageRs.MethodCall.handle
      = (Newdbus.MethodCall.new d p i m alloc).map Newdbus.MethodCall.handle ∧
    (MessageRs.MethodCall.new_response ⟨h⟩ allocRet).map MessageRs.MethodReturn.handle
      = (Newdbus.MethodCall.new_return ⟨h⟩ allocRet).map Newdbus.MethodReturn.handle ∧
    (MessageRs.MethodCall.respond_with ⟨h⟩ v allocRet).map (fun x => (x.1.handle, x.2))
      = (Newdbus.MethodCall.respond_with ⟨h⟩ v allocRet).map (fun x => (x.1.handle, x.2)) := by
  have hargs : MessageRs.methodCallArgs d p i m = Newdbus.methodCallArgs d p i m := by
    unfold MessageRs.methodCallArgs Newdbus.methodCallArgs
    rw [matchlen_eq_ifEmpty d, matchlen_eq_ifEmpty i]
  refine ⟨rfl, rfl, hargs, ?_, ?_, ?_⟩
  · unfold MessageRs.MethodCall.new Newdbus.MethodCall.new
    rw [hargs]
    cases check_memory (alloc (Newdbus.methodCallArgs d p i m)) <;> rfl
  · unfold MessageRs.MethodCall.new_response Newdbus.MethodCall.new_return
    cases check_memory (allocRet h) <;> rfl
  · unfold MessageRs.MethodCall.respond_with Newdbus.MethodCall.respond_with
    unfold MessageRs.MethodCall.new_response Newdbus.MethodCall.new_return
    cases check_memory (allocRet h) <;> rfl

end DbusRs
